import Mathlib

/-!
# Verification of the `toJTWCdat` transform

Shallow embedding of `src/toJTWCdat/__init__.py` (class `BUFR2JTWC`).
The module converts decoded BUFR tropical-cyclone features into
(a) fixed-width JTWC `.dat` text records and (b) derived geojson features.

Conventions of the embedding:
* Python floats are modelled as exact rationals (`ℚ`); all the numeric
  literals of the source (`0.51444444`, `0.000539957`, `2.5`, `10`) are
  decimal-exact, so the `int`-truncations proved here agree with the
  double-precision results at every input used in a concrete theorem.
* Python `int(x)` (truncation toward zero) is `pyTrunc`.
* Fallible operations (`KeyError`, `IndexError`, `ValueError` from
  `strptime`/unpacking, `AssertionError`) are `Except String`.
* CPython `repr` of a float whose value is a decimal-exact rational is
  `pyFloatStr` (shortest decimal form; exact on such values).
* Python functions that mutate their `feature` argument in place and
  return it (`extract_MSLP`, `extract_Vmax`, `extract_wind_polygon`)
  are modelled as `Feature → Except String Feature`; the returned value
  is simultaneously the post-state of the argument object.
* The WGS84 forward geodesic `Geod.fwd` is transcendental; the embedding
  is parameterised by an arbitrary projector
  `proj : ℚ → ℚ → ℚ → ℚ → ℚ × ℚ` (lon, lat, azimuth, distance ↦ lon, lat).
-/

namespace ToJTWCdat

/-- Python `int(x)`: truncation of a real toward zero. -/
def pyTrunc (q : ℚ) : ℤ := if 0 ≤ q then ⌊q⌋ else ⌈q⌉

/-- Powers of ten. -/
def pow10 (k : ℕ) : ℕ := 10 ^ k

/-- Left-pad a string with zeros to width `w`. -/
def padZeros (w : ℕ) (s : String) : String :=
  if s.length < w then String.mk (List.replicate (w - s.length) '0') ++ s else s

/-- Smallest `k ≤ 20` with `d ∣ 10^k`, if any. -/
def decExponent (d : ℕ) : Option ℕ :=
  (List.range 21).find? (fun k => pow10 k % d == 0)

/-- CPython `repr`/`str` of a float holding the decimal-exact rational `q`
(shortest round-trip decimal). Exact whenever the denominator of `q`
divides a power of ten, which covers every float the source formats. -/
def pyFloatStr (q : ℚ) : String :=
  let sign := if q < 0 then "-" else ""
  let n := q.num.natAbs
  let d := q.den
  match decExponent d with
  | none => sign ++ toString n ++ "/" ++ toString d
  | some 0 => sign ++ toString n ++ ".0"
  | some (k + 1) =>
      let scaled := n * pow10 (k + 1) / d
      let ip := scaled / pow10 (k + 1)
      let fp := scaled % pow10 (k + 1)
      sign ++ toString ip ++ "." ++ padZeros (k + 1) (toString fp)

/-- Python `f"{s:>w}"` on a string: right-justify in a field of width `w`. -/
def rjust (w : ℕ) (s : String) : String :=
  if s.length < w then String.mk (List.replicate (w - s.length) ' ') ++ s else s

/-- `"/" in s` (Python substring test for the one-character separator). -/
def containsSlash (s : String) : Bool := s.toList.any (· == '/')

/-- Python `a, b = s.split(sep)`: exactly two parts or `ValueError`. -/
def split2 (sep : String) (s : String) : Except String (String × String) :=
  match s.splitOn sep with
  | [a, b] => Except.ok (a, b)
  | _ => Except.error "ValueError: unpack"

/-- Digits of a fixed-width numeric field; `none` when a non-digit appears. -/
def parseDigits (cs : List Char) : Option ℕ :=
  cs.foldlM (fun acc c => if c.isDigit then some (acc * 10 + (c.toNat - 48)) else none) 0

/-- A Gregorian-calendar instant, as `datetime.datetime` holds it. -/
structure DT where
  year : ℕ
  month : ℕ
  day : ℕ
  hour : ℕ
  minute : ℕ
  second : ℕ
  deriving DecidableEq, Repr

/-- Gregorian leap year. -/
def isLeap (y : ℕ) : Bool := y % 4 == 0 && (y % 100 != 0 || y % 400 == 0)

/-- Length of month `m` of year `y`. -/
def daysInMonth (y m : ℕ) : ℕ :=
  if m = 2 then (if isLeap y then 29 else 28)
  else if m = 4 ∨ m = 6 ∨ m = 9 ∨ m = 11 then 30
  else 31

/-- Days in the months of year `y` strictly before month `mo`. -/
def daysBeforeMonth (y mo : ℕ) : ℕ :=
  ((List.range (mo - 1)).map (fun i => daysInMonth y (i + 1))).sum

/-- Proleptic-Gregorian day number of a date (0 at 0001-01-01), matching
the day arithmetic of `datetime.timedelta`. -/
def rataDie (y mo d : ℕ) : ℕ :=
  365 * (y - 1) + ((y - 1) / 4 - (y - 1) / 100 + (y - 1) / 400) +
    daysBeforeMonth y mo + (d - 1)

/-- Seconds since 0001-01-01T00:00:00, so that differences of `toSeconds`
agree with `(b - a).total_seconds()` on `datetime` values. -/
def toSeconds (t : DT) : ℕ :=
  rataDie t.year t.month t.day * 86400 + t.hour * 3600 + t.minute * 60 + t.second

/-- `datetime.strptime(s, "%Y-%m-%dT%H:%M:%SZ")`: fixed-width fields and the
range checks the `datetime` constructor enforces; `none` models `ValueError`. -/
def parseTS (str : String) : Option DT :=
  match str.toList with
  | [y1, y2, y3, y4, '-', m1, m2, '-', d1, d2, 'T',
     h1, h2, ':', i1, i2, ':', s1, s2, 'Z'] => do
      let y ← parseDigits [y1, y2, y3, y4]
      let mo ← parseDigits [m1, m2]
      let d ← parseDigits [d1, d2]
      let h ← parseDigits [h1, h2]
      let mi ← parseDigits [i1, i2]
      let s ← parseDigits [s1, s2]
      if 1 ≤ mo ∧ mo ≤ 12 ∧ 1 ≤ d ∧ d ≤ daysInMonth y mo ∧
          h ≤ 23 ∧ mi ≤ 59 ∧ s ≤ 59 then
        some ⟨y, mo, d, h, mi, s⟩
      else none
  | _ => none

/-- Zero-padded two-digit field. -/
def pad2 (n : ℕ) : String := padZeros 2 (toString n)

/-- Zero-padded four-digit field. -/
def pad4 (n : ℕ) : String := padZeros 4 (toString n)

/-- Python `str(datetime)`: `"YYYY-MM-DD HH:MM:SS"`. -/
def dtStr (t : DT) : String :=
  pad4 t.year ++ "-" ++ pad2 t.month ++ "-" ++ pad2 t.day ++ " " ++
    pad2 t.hour ++ ":" ++ pad2 t.minute ++ ":" ++ pad2 t.second

/-- `datetime.strftime("%Y%m%d%H")`. -/
def strftimeYMDH (t : DT) : String :=
  pad4 t.year ++ pad2 t.month ++ pad2 t.day ++ pad2 t.hour

/-- `(vt - ft).total_seconds()` as an exact rational number of seconds. -/
def hourDiff (ft vt : DT) : ℚ :=
  ((toSeconds vt : ℤ) : ℚ) - ((toSeconds ft : ℤ) : ℚ)

/-- `int((vt - ft).total_seconds() / 3600)` — the lead-time computation of
`transform` (line 111). -/
def tauOf (ft vt : DT) : ℤ :=
  pyTrunc (hourDiff ft vt / 3600)

/-! ## Data model: decoded geojson features -/

/-- A metadata entry's `value`: a Python int, float, or two-element list of
floats (the shape `bearing_or_azimuth` carries). -/
inductive MVal where
  | int (n : ℤ)
  | num (q : ℚ)
  | pair (a b : ℚ)
  deriving DecidableEq, Repr

/-- Python `f"{v}"` applied to a metadata value. -/
def MVal.pyStr : MVal → String
  | .int n => toString n
  | .num q => pyFloatStr q
  | .pair a b => "[" ++ pyFloatStr a ++ ", " ++ pyFloatStr b ++ "]"

/-- One entry of a feature's `metadata` list (`name`/`value`/`units`). -/
structure MetaEntry where
  name : String
  mval : MVal
  units : String
  deriving DecidableEq, Repr

/-- A geometry's `coordinates`: a lon/lat point, or a list of polygon rings. -/
inductive GeoCoords where
  | point (lon lat : ℚ)
  | poly (rings : List (List (ℚ × ℚ)))
  deriving DecidableEq, Repr

/-- A geojson `geometry` object. -/
structure Geometry where
  gtype : String
  coords : GeoCoords
  deriving DecidableEq, Repr

/-- A feature's `properties` dict. `metadata` is `none` once
`extract_wind_polygon` has `del`eted the key; `parameters` is `none` until
`extract_wind_polygon` has created it. -/
structure Properties where
  name : String
  value : ℚ
  units : String
  subset : String
  wigos_station_identifier : String
  phenomenonTime : String
  resultTime : String
  metadata : Option (List MetaEntry)
  parameters : Option (List MetaEntry)
  deriving DecidableEq, Repr

/-- One decoded geojson feature (`item['geojson']`). -/
structure Feature where
  properties : Properties
  geometry : Geometry
  deriving DecidableEq, Repr

/-- Turn an optional value into an `Except`, the given exception standing
for the `KeyError`/`AssertionError`/`IndexError` the source would raise. -/
def reqSome {α : Type} (o : Option α) (e : String) : Except String α :=
  match o with
  | some a => Except.ok a
  | none => Except.error e

/-- A metadata value used as a two-element list (`value[0]`, `value[1]`);
anything else raises `TypeError`. -/
def asPairQ (v : MVal) : Except String (ℚ × ℚ) :=
  match v with
  | .pair a b => Except.ok (a, b)
  | _ => Except.error "TypeError: not a pair"

/-- A metadata value used as a number; a list raises `TypeError` (the
transform divides it). -/
def asRatQ (v : MVal) : Except String ℚ :=
  match v with
  | .int n => Except.ok (n : ℚ)
  | .num q => Except.ok q
  | .pair _ _ => Except.error "TypeError: not a number"

/-- `datetime.strptime` as the source calls it: `ValueError` on failure. -/
def strptime (s : String) : Except String DT :=
  reqSome (parseTS s) "ValueError: strptime"

/-- Read `properties['metadata']`; `KeyError` when the key was deleted. -/
def getMetadata (p : Properties) : Except String (List MetaEntry) :=
  match p.metadata with
  | some md => Except.ok md
  | none => Except.error "KeyError: metadata"

/-- `geometry['coordinates'][0]`, `[1]` on a point geometry. -/
def pointCoords (g : Geometry) : Except String (ℚ × ℚ) :=
  match g.coords with
  | .point lon lat => Except.ok (lon, lat)
  | _ => Except.error "TypeError: coordinates"

/-- The value (and units) of the last metadata entry named `nm` — the
source's `for metadata in ...: if metadata['name'] == nm: x = ...` loops
have no `break`, so the last match wins. -/
def lastMeta (nm : String) (md : List MetaEntry) : Option (MVal × String) :=
  md.foldl (fun acc m => if m.name == nm then some (m.mval, m.units) else acc) none

/-! ## The three `extract_*` helpers

Each Python helper mutates its `feature` argument in place and returns it;
the `Except.ok` result below is both the return value and the post-state of
the caller's object. -/

/-- The time-renormalisation block shared by all three helpers
(lines 243–250, 256–263, 310–317): split `phenomenonTime` on `/` (or fall
back to `resultTime`), then overwrite `resultTime` with the reference part
and `phenomenonTime` with the valid part. -/
def swapTimes (p : Properties) : Except String Properties := do
  let ft := p.phenomenonTime
  let (t1, t2) ←
    if containsSlash ft then split2 "/" ft
    else Except.ok (ft, p.resultTime)
  Except.ok { p with resultTime := t1, phenomenonTime := t2 }

/-- `BUFR2JTWC.extract_MSLP` (lines 253–264). -/
def extract_MSLP (f : Feature) : Except String Feature := do
  let p ← swapTimes f.properties
  Except.ok { f with properties := p }

/-- `BUFR2JTWC.extract_Vmax` (lines 241–251). -/
def extract_Vmax (f : Feature) : Except String Feature := do
  let p ← swapTimes f.properties
  Except.ok { f with properties := p }

/-- The metadata names `extract_wind_polygon` keeps (lines 268–270). -/
def keepNames : List String :=
  ["centre", "generating_application", "storm_identifier", "long_storm_name",
   "technique_for_making_up_initial_perturbations", "ensemble_member_number",
   "ensemble_forecast_type", "meteorological_attribute_significance"]

/-- `np.arange start stop step` for a positive step: the values
`start + i*step` for `0 ≤ i < ⌈(stop − start)/step⌉`. -/
def arange (start stop step : ℚ) : List ℚ :=
  (List.range (max 0 ⌈(stop - start) / step⌉).toNat).map
    (fun i => start + (i : ℚ) * step)

/-- `BUFR2JTWC.extract_wind_polygon` (lines 266–318), parameterised by the
forward-geodesic projector standing for `Geod(ellps="WGS84").fwd` (of whose
result only components 0–1, the destination lon/lat, are used). -/
def extract_wind_polygon (proj : ℚ → ℚ → ℚ → ℚ → ℚ × ℚ) (f : Feature) :
    Except String Feature := do
  let radius := f.properties.value
  let parameters ← getMetadata f.properties
  let (lon, lat) ← pointCoords f.geometry
  -- bearing: last `bearing_or_azimuth` entry; `assert bearing is not None`,
  -- then indexed as a two-element list
  let bear ← reqSome (lastMeta "bearing_or_azimuth" parameters)
    "AssertionError: bearing"
  let (b0, b1) ← asPairQ bear.1
  -- `if bearing[1] == 0: bearing[1] = 360`
  let b1 := if b1 = 0 then (360 : ℚ) else b1
  -- wind speed threshold (value and units): last `wind_speed_threshold`
  -- entry; `assert wind_speed is not None`. The scalar `value` slot of the
  -- embedding holds the numeric threshold (decoded thresholds are numeric).
  let wsp ← reqSome (lastMeta "wind_speed_threshold" parameters)
    "AssertionError: wind_speed"
  let wsQ ← asRatQ wsp.1
  -- keep only the allow-listed parameters, delete `metadata`
  let params := parameters.filter (fun m => keepNames.contains m.name)
  -- sample the arc and close the ring through the centre point
  let ring := (lon, lat) ::
    ((arange b0 (b1 + 2.5) 2.5).map (fun b => proj lon lat b radius) ++ [(lon, lat)])
  let p := { f.properties with
               metadata := none, parameters := some params,
               name := "wind_speed_threshold", value := wsQ, units := wsp.2 }
  let p ← swapTimes p
  Except.ok { properties := p,
              geometry := { gtype := "Polygon", coords := .poly [ring] } }

/-! ## The aggregation state of `transform` (lines 56–174) -/

/-- The per-threshold quadrant row, initialised from the `rads` template
(lines 79–86). `RAD1`–`RAD4` start as the empty string and may be set to an
int; `none` models the blank. -/
structure Rads where
  RAD : String
  wind_code : String
  RAD1 : Option ℤ
  RAD2 : Option ℤ
  RAD3 : Option ℤ
  RAD4 : Option ℤ
  deriving DecidableEq, Repr

/-- The `rads` template dict (lines 79–86). -/
def radsInit : Rads :=
  { RAD := "", wind_code := "NEQ",
    RAD1 := none, RAD2 := none, RAD3 := none, RAD4 := none }

/-- One in-progress output row, initialised from the `datarow` template
(lines 62–78). Fields the template leaves as `""` but the MSLP branch later
sets to non-strings (`lat`, `lon`, `tau`, `Vmax`, `MSLP`) are `Option`s:
`none` is the Python state in which the key is absent (`lat`/`lon`/`tau`,
created only by the MSLP branch) or still holds the empty string
(`Vmax`/`MSLP`). -/
structure DataRow where
  basin : String
  cyclone_number : String
  yyyymmddhh : String
  tech_number : String
  tech : String
  clat : String
  clon : String
  flat : String
  flon : String
  Vmax : Option ℤ
  MSLP : Option ℤ
  TY : String
  RAD : List (ℤ × Rads)
  MSLP_metadata : Option (List MetaEntry)
  Vmax_metadata : Option (List MetaEntry)
  MSLP_geometry : Option Geometry
  Vmax_geometry : Option Geometry
  lat : Option ℚ
  lon : Option ℚ
  tau : Option ℤ
  deriving DecidableEq, Repr

/-- The `datarow` template dict (lines 62–78). -/
def datarowInit : DataRow :=
  { basin := "", cyclone_number := "", yyyymmddhh := "",
    tech_number := "00", tech := "ECMF",
    clat := "", clon := "", flat := "", flon := "",
    Vmax := none, MSLP := none, TY := "XX", RAD := [],
    MSLP_metadata := none, Vmax_metadata := none,
    MSLP_geometry := none, Vmax_geometry := none,
    lat := none, lon := none, tau := none }

/-- The per-collection state: the insertion-ordered `JTWC` dict and the
insertion-ordered `geojsons_out` dict of dicts (lines 61, 87). -/
structure CollState where
  JTWC : List (String × DataRow)
  geojsons : List (String × List (String × Feature))
  deriving DecidableEq, Repr

/-- The state at the top of a collection: both dicts empty. -/
def initState : CollState := { JTWC := [], geojsons := [] }

/-- `if key1 not in JTWC: JTWC[key1] = deepcopy(datarow)` and the same for
`geojsons_out` (lines 115–118); dict insertion order is preserved. -/
def ensureKey (st : CollState) (k : String) : CollState :=
  { JTWC := if st.JTWC.any (fun p => p.1 == k) then st.JTWC
            else st.JTWC ++ [(k, datarowInit)],
    geojsons := if st.geojsons.any (fun p => p.1 == k) then st.geojsons
                else st.geojsons ++ [(k, [])] }

/-- Current row for a key known to be present. -/
def getRow (st : CollState) (k : String) : DataRow :=
  ((st.JTWC.find? (fun p => p.1 == k)).map Prod.snd).getD datarowInit

/-- `JTWC[key1] = row` for an existing key (in-place dict update). -/
def setRow (st : CollState) (k : String) (r : DataRow) : CollState :=
  { st with JTWC := st.JTWC.map (fun p => if p.1 == k then (k, r) else p) }

/-- `geojsons_out[key1][k2] = f`: overwrite in place or append. -/
def setGeo (st : CollState) (k : String) (k2 : String) (f : Feature) : CollState :=
  { st with geojsons := st.geojsons.map (fun p =>
      if p.1 == k then
        (k, if p.2.any (fun q => q.1 == k2) then
              p.2.map (fun q => if q.1 == k2 then (k2, f) else q)
            else p.2 ++ [(k2, f)])
      else p) }

/-! ## Scalar derivations of the aggregation branches -/

/-- Knots-per-(m/s) divisor used for `Vmax` and the threshold key
(lines 150, 167). -/
def mpsPerKnot : ℚ := 0.51444444

/-- Metres-to-nautical-miles factor for the radius value (line 168). -/
def nmPerMetre : ℚ := 0.000539957

/-- `int(value / 0.51444444)` — the max-wind conversion (line 150). -/
def vmaxKnots (mps : ℚ) : ℤ := pyTrunc (mps / mpsPerKnot)

/-- `int(value * 0.000539957)` — the radius conversion (line 168). -/
def radiusNm (metres : ℚ) : ℤ := pyTrunc (metres * nmPerMetre)

/-- `int(threshold / 0.51444444)` — the threshold-map key (line 167). -/
def thresholdKnots (mps : ℚ) : ℤ := pyTrunc (mps / mpsPerKnot)

/-- Encoded latitude (lines 127–133):
`clat = int(abs(lat * 10))` suffixed by `N` when `lat >= 0`, else `S`. -/
def encLat (lat : ℚ) : String :=
  toString (pyTrunc |lat * 10|) ++ (if 0 ≤ lat then "N" else "S")

/-- Encoded longitude (lines 135–141):
`clon = int(abs(lon * 10))` suffixed by `E` when `lon >= 0`, else `W`. -/
def encLon (lon : ℚ) : String :=
  toString (pyTrunc |lon * 10|) ++ (if 0 ≤ lon then "E" else "W")

/-- The module-level `bearingToName` dict (lines 38–43), looked up with the
`f"{bearing[0]}-{bearing[1]}"` key; a missing key is a `KeyError`. -/
def bearingToName (s : String) : Option String :=
  if s = "0.0-90.0" then some "RAD1"
  else if s = "90.0-180.0" then some "RAD2"
  else if s = "180.0-270.0" then some "RAD3"
  else if s = "270.0-0.0" then some "RAD4"
  else none

/-- Quadrant assignment as `transform` performs it on a bearing pair
(lines 159–166): format both angles as Python floats, join with `-`, and
look the string up in `bearingToName`. -/
def quadrantOf (a b : ℚ) : Option String :=
  bearingToName (pyFloatStr a ++ "-" ++ pyFloatStr b)

/-- Set the quadrant column named `colname` on a `Rads` row (lines 170,
173); `colname` always comes out of `bearingToName`. -/
def setQuadrant (r : Rads) (colname : String) (v : ℤ) : Rads :=
  if colname = "RAD1" then { r with RAD1 := some v }
  else if colname = "RAD2" then { r with RAD2 := some v }
  else if colname = "RAD3" then { r with RAD3 := some v }
  else { r with RAD4 := some v }

/-- `RAD[key2][colname] = val`, creating the `rads`-template row on first
sight of the threshold (lines 169–173, insertion order preserved). -/
def setRadEntry (rad : List (ℤ × Rads)) (key2 : ℤ) (colname : String) (v : ℤ) :
    List (ℤ × Rads) :=
  if rad.any (fun p => p.1 == key2) then
    rad.map (fun p => if p.1 == key2 then (key2, setQuadrant p.2 colname v) else p)
  else rad ++ [(key2, setQuadrant radsInit colname v)]

/-- The metadata loop of the quadrant-radius branch (lines 158–163): one
pass, keeping the last `bearing_or_azimuth` (formatted immediately as
`f"{bearing[0]}-{bearing[1]}"`, a `TypeError` when the value is not a
two-element list) and the last `wind_speed_threshold` value. -/
def radiusMetaLoop (md : List MetaEntry) :
    Except String (Option String × Option MVal) :=
  md.foldlM (fun acc m =>
    if m.name == "bearing_or_azimuth" then
      match m.mval with
      | .pair a b => Except.ok (some (pyFloatStr a ++ "-" ++ pyFloatStr b), acc.2)
      | _ => Except.error "TypeError: bearing index"
    else if m.name == "wind_speed_threshold" then Except.ok (acc.1, some m.mval)
    else Except.ok acc) ((none, none) : Option String × Option MVal)

/-- Time resolution of `transform` (lines 99–110): split an interval-valued
`phenomenonTime` on `/` into (reference, valid) timestamp strings — falling
back to `resultTime` for the valid time when there is no interval — and
parse both with `strptime`. -/
def resolveTimes (pt rt : String) : Except String (DT × DT) := do
  let (ftStr, tauStr) ←
    if containsSlash pt then split2 "/" pt
    else Except.ok (pt, rt)
  let ft ← strptime ftStr
  let vt ← strptime tauStr
  Except.ok (ft, vt)

/-- The lead-time pipeline of lines 99–111: resolve the two timestamps and
take `int((vt - ft).total_seconds() / 3600)`. -/
def leadTime (pt rt : String) : Except String ℤ :=
  (resolveTimes pt rt).map (fun p => tauOf p.1 p.2)

/-- The body of `for id, item in collection.items():` (lines 88–174): derive
the record key, create the row on first sight, then dispatch on the feature
name. A feature whose name is none of the three known kinds falls through
the `if`/`elif` chain with no `else`: its key is still created but nothing
is recorded. Any exception (`KeyError`, `ValueError`, `IndexError`,
`AssertionError`, `TypeError`) is uncaught in the source and surfaces as
`Except.error`, aborting the invocation. -/
def processFeature (proj : ℚ → ℚ → ℚ → ℚ → ℚ × ℚ) (st : CollState)
    (item : Feature) : Except String CollState := do
  let p := item.properties
  let md ← getMetadata p
  -- ensemble-member override of the subset discriminator (lines 92–95)
  let subset := md.foldl
    (fun acc m => if m.name == "ensemble_member_number" then m.mval.pyStr else acc)
    p.subset
  -- `stormName, stormNumber = stormIdentifier.split("-")` (line 97)
  let (_stormName, stormNumber) ← split2 "-" p.wigos_station_identifier
  -- time resolution (lines 99–111)
  let (ft, vt) ← resolveTimes p.phenomenonTime p.resultTime
  let tau := tauOf ft vt
  -- `key1 = f"{stormIdentifier}-{subset}-{forecastTime}-{tau}"` (line 113)
  let key1 := p.wigos_station_identifier ++ "-" ++ subset ++ "-" ++
    dtStr ft ++ "-" ++ toString tau
  let st := ensureKey st key1
  if p.name == "pressure_reduced_to_mean_sea_level" then do
    let geo ← extract_MSLP item
    let st := setGeo st key1 "MSLP" geo
    let (lon, lat) ← pointCoords item.geometry
    -- `stormNumber[2]` raises `IndexError` on a short number (line 143)
    let basinChar ← reqSome (stormNumber.toList.get? 2) "IndexError: stormNumber"
    let basin := String.mk [basinChar]
    let row := getRow st key1
    let row := { row with
      MSLP_metadata := some md,
      MSLP_geometry := some item.geometry,
      MSLP := some (pyTrunc p.value),
      clat := encLat lat, lat := some lat,
      clon := encLon lon, lon := some lon,
      basin := basin,
      cyclone_number := String.mk (stormNumber.toList.take 2),
      yyyymmddhh := strftimeYMDH ft,
      tau := some tau }
    Except.ok (setRow st key1 row)
  else if p.name == "wind_speed_at10m" then do
    let geo ← extract_Vmax item
    let st := setGeo st key1 "vmax" geo
    let row := getRow st key1
    let row := { row with
      Vmax := some (vmaxKnots p.value),
      Vmax_metadata := some md,
      Vmax_geometry := some item.geometry }
    Except.ok (setRow st key1 row)
  else if p.name == "effective_radius_with_respect_to_wind_speeds_above_threshold" then do
    let bt ← radiusMetaLoop md
    let bearingKey ← reqSome bt.1 "AssertionError: bearing"
    let thresholdV ← reqSome bt.2 "AssertionError: threshold"
    -- `colname = bearingToName[bearing]` (line 166): `KeyError` when absent
    let colname ← reqSome (bearingToName bearingKey) "KeyError: bearing"
    let thr ← asRatQ thresholdV
    let key2 := thresholdKnots thr
    let v := radiusNm p.value
    let row := getRow st key1
    let row := { row with RAD := setRadEntry row.RAD key2 colname v }
    let st := setRow st key1 row
    let geo ← extract_wind_polygon proj item
    Except.ok (setGeo st key1 (toString key2 ++ "-" ++ colname) geo)
  else
    Except.ok st

/-- Folding a collection's features through `processFeature`; the first
uncaught exception aborts the whole fold, exactly as in the source. -/
def aggregate (proj : ℚ → ℚ → ℚ → ℚ → ℚ × ℚ) :
    CollState → List Feature → Except String CollState
  | st, [] => Except.ok st
  | st, f :: rest =>
    match processFeature proj st f with
    | Except.error e => Except.error e
    | Except.ok st' => aggregate proj st' rest

/-! ## The fixed-width serializer and output assembly (lines 179–231) -/

/-- Python `f"{v:>w}"` on a field that is either the initial `""` or an
int. -/
def optIntStr : Option ℤ → String
  | none => ""
  | some n => toString n

/-- The `head` tuple (lines 181–191). `lat`, `lon` and `tau` are read from
keys that exist only if an MSLP feature arrived: otherwise `KeyError`.
`lat`/`lon` hold raw floats and are formatted as such. -/
def serializeHead (row : DataRow) : Except String (List String) := do
  let tau ← match row.tau with
    | some t => Except.ok t
    | none => Except.error "KeyError: tau"
  let lat ← match row.lat with
    | some q => Except.ok q
    | none => Except.error "KeyError: lat"
  let lon ← match row.lon with
    | some q => Except.ok q
    | none => Except.error "KeyError: lon"
  Except.ok [rjust 2 row.basin, rjust 2 row.cyclone_number,
    rjust 10 row.yyyymmddhh, rjust 2 row.tech_number, rjust 4 row.tech,
    rjust 3 (toString tau), rjust 4 (pyFloatStr lat), rjust 5 (pyFloatStr lon),
    rjust 3 (optIntStr row.Vmax), rjust 4 (optIntStr row.MSLP),
    rjust 2 row.TY]

/-- The `quadrants` tuple for one threshold entry (lines 196–202),
including the trailing empty field. -/
def quadFields (key2 : ℤ) (r : Rads) : List String :=
  [rjust 3 (toString key2), rjust 3 r.wind_code,
   rjust 4 (optIntStr r.RAD1), rjust 4 (optIntStr r.RAD2),
   rjust 4 (optIntStr r.RAD3), rjust 4 (optIntStr r.RAD4), ""]

/-- `output_string` for one record: one `", "`-joined line per `RAD` entry,
each terminated by a newline (lines 180–204). A record with no `RAD`
entries yields the empty string. -/
def serializeRecord (row : DataRow) : Except String String := do
  let head ← serializeHead row
  Except.ok (String.join (row.RAD.map
    (fun p => String.intercalate ", " (head ++ quadFields p.1 p.2) ++ "\n")))

/-- A `.dat` entry of `self.output_data` (lines 212–218). -/
structure DatArtifact where
  key : String
  dat : String
  data_date : String
  relative_filepath : String
  deriving DecidableEq, Repr

/-- A geojson entry of `self.output_data` (lines 221–229); the payload is
held as the feature object (`json.dumps` happens at the boundary). -/
structure GeoArtifact where
  key : String
  payload : Feature
  data_date : String
  relative_filepath : String
  deriving DecidableEq, Repr

/-- `get_local_filepath` (lines 236–238): `Path(date_[0:10]) / 'wis' /
self.topic_hierarchy.dirpath`, with the dirpath as a parameter. -/
def localFilepath (dirpath date_ : String) : String :=
  String.mk (date_.toList.take 10) ++ "/wis/" ++ dirpath

/-- Both output streams of one collection. -/
structure Output where
  dats : List DatArtifact
  geos : List GeoArtifact
  deriving DecidableEq, Repr

/-- The two output loops at the end of a collection (lines 179–231). The
dat loop serializes each record with its own `yyyymmddhh`; the geojson loop
then reuses the loop variable `data` left over from the dat loop, so every
geojson artifact is stamped with the **last** record's `yyyymmddhh` and
filepath. When `JTWC` is empty, `geojsons_out` is empty too (keys are
created in pairs), so no geojson artifact is emitted. -/
def buildOutput (dirpath : String) (st : CollState) : Except String Output := do
  let dats ← st.JTWC.mapM (fun p => do
    let s ← serializeRecord p.2
    Except.ok ({ key := p.1, dat := s, data_date := p.2.yyyymmddhh,
                 relative_filepath := localFilepath dirpath p.2.yyyymmddhh } :
               DatArtifact))
  match (st.JTWC.map Prod.snd).getLast? with
  | none => Except.ok { dats := dats, geos := [] }
  | some lastRow =>
      let geos := st.geojsons.flatMap (fun p =>
        p.2.map (fun q =>
          ({ key := p.1 ++ "-" ++ q.1, payload := q.2,
             data_date := lastRow.yyyymmddhh,
             relative_filepath := localFilepath dirpath lastRow.yyyymmddhh } :
           GeoArtifact)))
      Except.ok { dats := dats, geos := geos }

/-- Processing of one feature collection inside `transform` (lines 56–231):
aggregate every feature, then assemble both output streams. -/
def processCollection (proj : ℚ → ℚ → ℚ → ℚ → ℚ × ℚ) (dirpath : String)
    (items : List Feature) : Except String Output := do
  let st ← aggregate proj initState items
  buildOutput dirpath st

/-- A stand-in projector used to close concrete statements that do not
depend on the geodesic (the source's `Geod.fwd` is transcendental). -/
def trivialProj : ℚ → ℚ → ℚ → ℚ → ℚ × ℚ := fun lon lat _ _ => (lon, lat)

/-! ## Concrete input features for witnesses and counterexamples -/

/-- Builder for a concrete feature's `properties`. -/
def mkProps (nm : String) (v : ℚ) (un sub wigos pt rt : String)
    (md : List MetaEntry) : Properties :=
  { name := nm, value := v, units := un, subset := sub,
    wigos_station_identifier := wigos, phenomenonTime := pt,
    resultTime := rt, metadata := some md, parameters := none }

/-- A central-pressure feature: 985 hPa at lon 145.5, lat 2.5, reference
and valid time both 2024-01-01T00Z (lead time 0), storm `STORM-13L`. -/
def featMSLP : Feature :=
  { properties := mkProps "pressure_reduced_to_mean_sea_level" 985 "hPa" "1"
      "STORM-13L" "2024-01-01T00:00:00Z/2024-01-01T00:00:00Z"
      "2024-01-01T00:00:00Z" [],
    geometry := { gtype := "Point", coords := .point 145.5 2.5 } }

/-- The metadata list of the concrete quadrant-radius features: bearing
range `[0°, 90°)`, threshold 9.26 m/s (18 kt). -/
def radMd : List MetaEntry :=
  [⟨"bearing_or_azimuth", .pair 0 90, "deg"⟩,
   ⟨"wind_speed_threshold", .num 9.26, "m s-1"⟩]

/-- A quadrant-radius feature: 9260 m (5 nmi) in `[0°, 90°)` at 18 kt, same
storm, time, and centre as `featMSLP`. -/
def featRad : Feature :=
  { properties := mkProps
      "effective_radius_with_respect_to_wind_speeds_above_threshold" 9260 "m"
      "1" "STORM-13L" "2024-01-01T00:00:00Z/2024-01-01T00:00:00Z"
      "2024-01-01T00:00:00Z" radMd,
    geometry := { gtype := "Point", coords := .point 145.5 2.5 } }

/-- `featRad` with a zero radius value. -/
def featRad0 : Feature :=
  { featRad with properties := { featRad.properties with value := 0 } }

/-- `featRad` with bearing range `[270°, 0°)` (the wrap-to-360 quadrant). -/
def featRad4 : Feature :=
  { featRad with properties := { featRad.properties with
      metadata := some [⟨"bearing_or_azimuth", .pair 270 0, "deg"⟩,
                        ⟨"wind_speed_threshold", .num 9.26, "m s-1"⟩] } }

/-- A max-wind feature with value 15.43 m/s, same storm and time. -/
def featVmax : Feature :=
  { properties := mkProps "wind_speed_at10m" 15.43 "m s-1" "1" "STORM-13L"
      "2024-01-01T00:00:00Z/2024-01-01T00:00:00Z" "2024-01-01T00:00:00Z" [],
    geometry := { gtype := "Point", coords := .point 145.5 2.5 } }

/-- A central-pressure feature whose `phenomenonTime` does not parse in the
`%Y-%m-%dT%H:%M:%SZ` format (and carries no `/` interval). -/
def featBad : Feature :=
  { properties := mkProps "pressure_reduced_to_mean_sea_level" 985 "hPa" "1"
      "STORM-13L" "not-a-timestamp" "2024-01-01T00:00:00Z" [],
    geometry := { gtype := "Point", coords := .point 145.5 2.5 } }

/-- A central-pressure feature at lat 12.36 (tenths value 123.6, so
truncation and rounding disagree). -/
def featMSLPb : Feature :=
  { featMSLP with geometry := { gtype := "Point", coords := .point 145.5 12.36 } }

/-- A central-pressure feature of the same storm at a later reference time
(2025-06-02T12Z), giving a second record with a different `yyyymmddhh`. -/
def featMSLP2 : Feature :=
  { featMSLP with properties := { featMSLP.properties with
      phenomenonTime := "2025-06-02T12:00:00Z/2025-06-02T12:00:00Z",
      resultTime := "2025-06-02T12:00:00Z" } }

/-- A lead-time feature: reference 2024-01-01T00Z, valid 01:30Z — a
90-minute (1.5 h) lead, on which truncation (1) and rounding (2) differ. -/
def featTau90 : Feature :=
  { featMSLP with properties := { featMSLP.properties with
      phenomenonTime := "2024-01-01T00:00:00Z/2024-01-01T01:30:00Z" } }

/-- The feature `extract_wind_polygon` produces from `featRad` under
`trivialProj` (every arc vertex collapses onto the centre point). -/
def featRadPolyRes : Feature :=
  (extract_wind_polygon trivialProj featRad).toOption.getD featRad

/-- The post-state of `featBad` after `extract_MSLP` has renormalised its
time fields in place. -/
def featBadSwapped : Feature :=
  (extract_MSLP featBad).toOption.getD featBad

/-- Aggregation state after the two-record collection
`[featMSLP, featMSLP2]`. -/
def stC10 : CollState :=
  (aggregate trivialProj initState [featMSLP, featMSLP2]).toOption.getD initState

/-- The assembled output of that collection. -/
def outC10 : Output :=
  (buildOutput "dir" stC10).toOption.getD { dats := [], geos := [] }

/-- The last-iterated row of that collection. -/
def lastRowC10 : DataRow :=
  ((stC10.JTWC.map Prod.snd).getLast?).getD datarowInit

/-- A default geojson artifact (for total projections out of lists). -/
def geoDefault : GeoArtifact :=
  { key := "", payload := featMSLP, data_date := "", relative_filepath := "" }

/-! ## Helper lemmas -/

/-- Python `int` truncation agrees with `⌊·⌋` on non-negative reals. -/
theorem pyTrunc_nonneg {q : ℚ} (h : 0 ≤ q) : pyTrunc q = ⌊q⌋ := by
  unfold pyTrunc
  rw [if_pos h]

/-- Inversion of a successful `Except` bind. -/
theorem bind_eq_ok {α β : Type} {x : Except String α} {k : α → Except String β}
    {b : β} (h : x >>= k = Except.ok b) :
    ∃ a, x = Except.ok a ∧ k a = Except.ok b := by
  cases x with
  | error e => exact Except.noConfusion h
  | ok a => exact ⟨a, rfl, h⟩

/-- A successful `swapTimes` touches only the two time fields. -/
theorem swapTimes_ok_fields (p q : Properties) (h : swapTimes p = Except.ok q) :
    q.metadata = p.metadata ∧ q.parameters = p.parameters ∧
    q.name = p.name ∧ q.value = p.value ∧ q.units = p.units := by
  unfold swapTimes at h
  cases hs : containsSlash p.phenomenonTime with
  | false =>
    simp only [hs, Bool.false_eq_true, if_false, bind, Except.bind,
      Except.ok.injEq] at h
    subst h
    exact ⟨rfl, rfl, rfl, rfl, rfl⟩
  | true =>
    simp only [hs, if_true, bind, Except.bind] at h
    cases hsp : split2 "/" p.phenomenonTime with
    | error e => rw [hsp] at h; exact Except.noConfusion h
    | ok pr =>
      rw [hsp] at h
      simp only [Except.ok.injEq] at h
      subst h
      exact ⟨rfl, rfl, rfl, rfl, rfl⟩

/-- Any successful run of `extract_wind_polygon` removes the `metadata` key
from the feature's properties and leaves a `Polygon` geometry type. -/
theorem ewp_meta_none (proj : ℚ → ℚ → ℚ → ℚ → ℚ × ℚ) (f g : Feature)
    (hok : extract_wind_polygon proj f = Except.ok g) :
    g.properties.metadata = none ∧ g.geometry.gtype = "Polygon" := by
  unfold extract_wind_polygon at hok
  obtain ⟨md, hmd, hok⟩ := bind_eq_ok hok
  try dsimp only at hok
  obtain ⟨ll, hll, hok⟩ := bind_eq_ok hok
  obtain ⟨lon, lat⟩ := ll
  try dsimp only at hok
  obtain ⟨bear, hbear, hok⟩ := bind_eq_ok hok
  try dsimp only at hok
  obtain ⟨bb, hbb, hok⟩ := bind_eq_ok hok
  obtain ⟨b0, b1⟩ := bb
  try dsimp only at hok
  obtain ⟨wsp, hwsp, hok⟩ := bind_eq_ok hok
  try dsimp only at hok
  obtain ⟨wq, hwq, hok⟩ := bind_eq_ok hok
  try dsimp only at hok
  obtain ⟨p', hp', hok⟩ := bind_eq_ok hok
  try dsimp only at hok
  obtain ⟨hm, -, -, -, -⟩ := swapTimes_ok_fields _ _ hp'
  simp only [Except.ok.injEq] at hok
  subst hok
  exact ⟨hm, rfl⟩

/-- A successful run of `extract_wind_polygon` on a point-geometry feature
whose last bearing metadata is the pair `(b0, b1)` builds exactly the
closed ring centre :: sampled arc :: centre. -/
theorem ewp_ring (proj : ℚ → ℚ → ℚ → ℚ → ℚ × ℚ) (f g : Feature)
    (md : List MetaEntry) (lon lat b0 b1 : ℚ) (bu : String)
    (hmd : f.properties.metadata = some md)
    (hco : f.geometry.coords = GeoCoords.point lon lat)
    (hb : lastMeta "bearing_or_azimuth" md = some (MVal.pair b0 b1, bu))
    (hok : extract_wind_polygon proj f = Except.ok g) :
    g.geometry.gtype = "Polygon" ∧
    g.geometry.coords = GeoCoords.poly
      [(lon, lat) :: ((arange b0 ((if b1 = 0 then 360 else b1) + 2.5) 2.5).map
         (fun b => proj lon lat b f.properties.value) ++ [(lon, lat)])] := by
  unfold extract_wind_polygon at hok
  obtain ⟨md0, hmd0, hok⟩ := bind_eq_ok hok
  simp only [getMetadata, hmd, Except.ok.injEq] at hmd0
  subst hmd0
  try dsimp only at hok
  obtain ⟨ll, hll, hok⟩ := bind_eq_ok hok
  simp only [pointCoords, hco, Except.ok.injEq] at hll
  subst hll
  try dsimp only at hok
  obtain ⟨bear, hbear, hok⟩ := bind_eq_ok hok
  simp only [reqSome, hb, Except.ok.injEq] at hbear
  subst hbear
  try dsimp only at hok
  obtain ⟨bb, hbb, hok⟩ := bind_eq_ok hok
  simp only [asPairQ, Except.ok.injEq] at hbb
  subst hbb
  try dsimp only at hok
  obtain ⟨wsp, hwsp, hok⟩ := bind_eq_ok hok
  try dsimp only at hok
  obtain ⟨wq, hwq, hok⟩ := bind_eq_ok hok
  try dsimp only at hok
  obtain ⟨p', hp', hok⟩ := bind_eq_ok hok
  try dsimp only at hok
  simp only [Except.ok.injEq] at hok
  subst hok
  exact ⟨rfl, rfl⟩

/-- A collection feature whose `phenomenonTime` has no `/` and fails to
parse makes the time-resolution step raise the `strptime` `ValueError`. -/
theorem resolveTimes_noParse (pt rt : String)
    (h1 : containsSlash pt = false) (h2 : parseTS pt = none) :
    resolveTimes pt rt = Except.error "ValueError: strptime" := by
  unfold resolveTimes
  simp [h1, h2, strptime, reqSome, bind, Except.bind]

/-- `processFeature` raises (in some form) on any feature whose
`phenomenonTime` has no `/` and fails to parse, whatever the current
state. -/
theorem processFeature_badTime (proj : ℚ → ℚ → ℚ → ℚ → ℚ × ℚ)
    (st : CollState) (f : Feature)
    (h1 : containsSlash f.properties.phenomenonTime = false)
    (h2 : parseTS f.properties.phenomenonTime = none) :
    ∃ e, processFeature proj st f = Except.error e := by
  unfold processFeature
  cases hmd : f.properties.metadata with
  | none =>
    refine ⟨"KeyError: metadata", ?_⟩
    simp [getMetadata, hmd, bind, Except.bind]
  | some md =>
    cases hsp : split2 "-" f.properties.wigos_station_identifier with
    | error e =>
      refine ⟨e, ?_⟩
      simp [getMetadata, hmd, hsp, bind, Except.bind]
    | ok pr =>
      refine ⟨"ValueError: strptime", ?_⟩
      simp [getMetadata, hmd, hsp, resolveTimes_noParse _ _ h1 h2,
        bind, Except.bind]

/-- An uncaught per-feature exception anywhere in a collection aborts the
whole fold. -/
theorem aggregate_badTime (proj : ℚ → ℚ → ℚ → ℚ → ℚ × ℚ) (st : CollState)
    (l1 l2 : List Feature) (f : Feature)
    (h1 : containsSlash f.properties.phenomenonTime = false)
    (h2 : parseTS f.properties.phenomenonTime = none) :
    ∃ e, aggregate proj st (l1 ++ f :: l2) = Except.error e := by
  induction l1 generalizing st with
  | nil =>
    obtain ⟨e, he⟩ := processFeature_badTime proj st f h1 h2
    exact ⟨e, by simp [aggregate, he]⟩
  | cons g gs ih =>
    rw [List.cons_append]
    cases hp : processFeature proj st g with
    | error e => exact ⟨e, by simp [aggregate, hp]⟩
    | ok st' =>
      obtain ⟨e, he⟩ := ih st'
      exact ⟨e, by simp [aggregate, hp, he]⟩

/-! ## Claims -/

/-- C4 counterexample: at a 90-minute lead (reference 2024-01-01T00:00:00Z,
valid 2024-01-01T01:30:00Z, both of which parse), the code's lead time —
both through `leadTime` and on the aggregated record — is the truncation 1,
while rounding the hour count to the nearest integer gives 2. -/
theorem C4_counterexample :
    leadTime "2024-01-01T00:00:00Z/2024-01-01T01:30:00Z" "x" = Except.ok 1 ∧
    (aggregate trivialProj initState [featTau90]).map
      (fun st => st.JTWC.map (fun p => p.2.tau)) = Except.ok [some 1] ∧
    parseTS "2024-01-01T00:00:00Z" = some ⟨2024, 1, 1, 0, 0, 0⟩ ∧
    parseTS "2024-01-01T01:30:00Z" = some ⟨2024, 1, 1, 1, 30, 0⟩ ∧
    round (hourDiff ⟨2024, 1, 1, 0, 0, 0⟩ ⟨2024, 1, 1, 1, 30, 0⟩ / 3600) = 2 := by
  refine ⟨?_, ?_, rfl, rfl, ?_⟩
  · with_unfolding_all rfl
  · with_unfolding_all rfl
  · with_unfolding_all decide

/-- C4 amended: for every feature whose reference and valid timestamps
resolve and parse, the lead time is the hour count truncated toward zero —
`⌊Δ/3600⌋` for a non-negative difference and `⌈Δ/3600⌉` for a negative one —
not the nearest-integer rounding. -/
theorem C4_amended (pt rt : String) (ft vt : DT)
    (h : resolveTimes pt rt = Except.ok (ft, vt)) :
    leadTime pt rt = Except.ok
      (if (0 : ℚ) ≤ hourDiff ft vt
       then ⌊hourDiff ft vt / 3600⌋
       else ⌈hourDiff ft vt / 3600⌉) := by
  unfold leadTime
  rw [h]
  show Except.ok (tauOf ft vt) = _
  unfold tauOf pyTrunc
  rcases le_or_lt 0 (hourDiff ft vt) with hh | hh
  · rw [if_pos (div_nonneg hh (by norm_num)), if_pos hh]
  · rw [if_neg (not_le.mpr (div_neg_of_neg_of_pos hh (by norm_num))),
      if_neg (not_le.mpr hh)]

/-- C4 amended, witnessed at the 90-minute lead: the pipeline yields 1. -/
theorem C4_amended_witness :
    leadTime "2024-01-01T00:00:00Z/2024-01-01T01:30:00Z" "x" = Except.ok 1 := by
  have h := C4_amended "2024-01-01T00:00:00Z/2024-01-01T01:30:00Z" "x"
    ⟨2024, 1, 1, 0, 0, 0⟩ ⟨2024, 1, 1, 1, 30, 0⟩ (by with_unfolding_all rfl)
  with_unfolding_all exact h

/-- C5 counterexample: a central-pressure feature at latitude 12.36 gives
the aggregated record the encoded latitude `123N` (truncation of 123.6),
while rounding `|lat|*10` to the nearest integer would give `124N`. -/
theorem C5_counterexample :
    (aggregate trivialProj initState [featMSLPb]).map
      (fun st => st.JTWC.map (fun p => p.2.clat)) = Except.ok ["123N"] ∧
    toString (round (|(12.36 : ℚ)| * 10)) ++ "N" = "124N" := by
  refine ⟨?_, ?_⟩
  · with_unfolding_all rfl
  · with_unfolding_all decide

/-- C5 amended: the encoded latitude is `⌊|lat|*10⌋` (truncation, not
rounding) followed by `N` for `lat ≥ 0` and `S` otherwise, and the encoded
longitude is `⌊|lon|*10⌋` followed by `E` for `lon ≥ 0` and `W` otherwise. -/
theorem C5_amended (lat lon : ℚ) :
    encLat lat = toString ⌊|lat| * 10⌋ ++ (if 0 ≤ lat then "N" else "S") ∧
    encLon lon = toString ⌊|lon| * 10⌋ ++ (if 0 ≤ lon then "E" else "W") := by
  constructor
  · unfold encLat
    rw [pyTrunc_nonneg (abs_nonneg _), abs_mul]
    norm_num
  · unfold encLon
    rw [pyTrunc_nonneg (abs_nonneg _), abs_mul]
    norm_num

/-- C6 counterexample: a max-wind feature of 15.43 m/s aggregates to
`Vmax = 29` knots — which agrees with `⌊mps/0.51444444⌋` — and not to the
30 knots the claim's example asserts. -/
theorem C6_counterexample :
    (aggregate trivialProj initState [featVmax]).map
      (fun st => st.JTWC.map (fun p => p.2.Vmax)) = Except.ok [some 29] ∧
    ⌊(15.43 : ℚ) / 0.51444444⌋ = 29 ∧ (29 : ℤ) ≠ 30 := by
  refine ⟨by with_unfolding_all rfl, by with_unfolding_all decide, by decide⟩

/-- C6 amended: for every non-negative wind speed `mps`, the converted
`Vmax` is `⌊mps / 0.51444444⌋`; in particular 15.43 m/s yields 29 knots
(not 30). -/
theorem C6_amended (mps : ℚ) (h : 0 ≤ mps) :
    vmaxKnots mps = ⌊mps / 0.51444444⌋ ∧ vmaxKnots 15.43 = 29 := by
  constructor
  · unfold vmaxKnots mpsPerKnot
    exact pyTrunc_nonneg (div_nonneg h (by norm_num))
  · with_unfolding_all decide

/-- C6 amended, witnessed at 15.43 m/s. -/
theorem C6_amended_witness :
    vmaxKnots 15.43 = ⌊(15.43 : ℚ) / 0.51444444⌋ ∧ vmaxKnots 15.43 = 29 :=
  C6_amended 15.43 (by norm_num)

/-- C7: the bearing-range table. The pair `(270°, 0°)` — a bearing end of
0° denoting the wrap to 360° — is assigned `RAD4`, never `RAD1`; the other
three quadrants follow the fixed table; every string outside the four table
keys raises `KeyError` (`none`); and on a whole record a `[270°, 0°)`
radius feature populates exactly `RAD4`. -/
theorem C7_quadrant_table :
    quadrantOf 270 0 = some "RAD4" ∧
    quadrantOf 0 90 = some "RAD1" ∧
    quadrantOf 90 180 = some "RAD2" ∧
    quadrantOf 180 270 = some "RAD3" ∧
    (aggregate trivialProj initState [featRad4]).map
      (fun st => st.JTWC.map (fun p => p.2.RAD)) =
      Except.ok [[(18, { radsInit with RAD4 := some 5 })]] ∧
    (∀ s, s ≠ "0.0-90.0" → s ≠ "90.0-180.0" → s ≠ "180.0-270.0" →
      s ≠ "270.0-0.0" → bearingToName s = none) := by
  refine ⟨by with_unfolding_all decide, by with_unfolding_all decide,
    by with_unfolding_all decide, by with_unfolding_all decide,
    by with_unfolding_all rfl, ?_⟩
  intro s h1 h2 h3 h4
  unfold bearingToName
  rw [if_neg h1, if_neg h2, if_neg h3, if_neg h4]

/-- C7, witnessed: the literal key `"270.0-360.0"` is not in the table
(the fourth quadrant is keyed by the 0° wrap form), so it fails. -/
theorem C7_quadrant_table_witness : bearingToName "270.0-360.0" = none :=
  C7_quadrant_table.2.2.2.2.2 "270.0-360.0"
    (by decide) (by decide) (by decide) (by decide)

/-- C1 counterexample: a collection whose second feature has an unparseable
timestamp makes the whole invocation fail — the preceding feature's record
is not serialized (with blank fields or otherwise), and the following
feature is never processed. -/
theorem C1_counterexample :
    processCollection trivialProj "dir" [featMSLP, featBad, featRad] =
      Except.error "ValueError: strptime" ∧
    (processCollection trivialProj "dir" [featMSLP, featRad]).isOk = true := by
  constructor
  · with_unfolding_all rfl
  · with_unfolding_all rfl

/-- C1 amended: per-feature errors are NOT caught at the feature-processing
boundary. A feature whose timestamp fails to parse (in the expected
ISO-8601-with-Z format) raises an uncaught exception that aborts the whole
collection: no record — neither the bad feature's nor any other — is
serialized, wherever in the collection the bad feature sits. -/
theorem C1_amended_abort (proj : ℚ → ℚ → ℚ → ℚ → ℚ × ℚ) (dirpath : String)
    (l1 l2 : List Feature) (f : Feature)
    (h1 : containsSlash f.properties.phenomenonTime = false)
    (h2 : parseTS f.properties.phenomenonTime = none) :
    ∃ e, processCollection proj dirpath (l1 ++ f :: l2) = Except.error e := by
  obtain ⟨e, he⟩ := aggregate_badTime proj initState l1 l2 f h1 h2
  exact ⟨e, by simp [processCollection, he, bind, Except.bind]⟩

/-- C1 amended, witnessed on the concrete three-feature collection. -/
theorem C1_amended_abort_witness :
    ∃ e, processCollection trivialProj "dir" ([featMSLP] ++ featBad :: [featRad]) =
      Except.error e :=
  C1_amended_abort trivialProj "dir" [featMSLP] [featRad] featBad rfl rfl

/-- C2: the serialized line places the raw signed decimal floats
`data['lat']`/`data['lon']` in the latitude/longitude positions (widths 4
and 5), even though the record's hemisphere-letter codes `clat`/`clon`
(`25N`, `1455E`) were computed and stored; the codes never reach the
output line. -/
theorem C2_raw_coords_serialized :
    (aggregate trivialProj initState [featMSLP, featRad]).map
      (fun st => st.JTWC.map (fun p => (p.2.clat, p.2.clon, serializeHead p.2))) =
      Except.ok [("25N", "1455E",
        Except.ok [" L", "13", "2024010100", "00", "ECMF", "  0",
          " 2.5", "145.5", "   ", " 985", "XX"])] ∧
    (processCollection trivialProj "dir" [featMSLP, featRad]).map
      (fun o => o.dats.map (fun d => d.dat)) =
      Except.ok
        [" L, 13, 2024010100, 00, ECMF,   0,  2.5, 145.5,    ,  985, XX,  18, NEQ,    5,     ,     ,     , \n"] ∧
    rjust 4 "25N" = " 25N" ∧ rjust 5 "1455E" = "1455E" := by
  refine ⟨?_, ?_, by decide, by decide⟩
  · with_unfolding_all rfl
  · with_unfolding_all rfl

/-- C3: for a quadrant-radius feature with radius 0, polygon synthesis is
NOT skipped — a degenerate 39-vertex `Polygon` is still emitted — while
the threshold/quadrant scalar entry (`RAD1 = 0` under threshold 18) is
recorded as the claim describes. -/
theorem C3_zero_radius_polygon_emitted :
    (extract_wind_polygon trivialProj featRad0).map
      (fun g => (g.geometry.gtype,
        (match g.geometry.coords with
         | GeoCoords.poly [r] => r.length
         | _ => 0),
        g.properties.value)) = Except.ok ("Polygon", 39, 9.26) ∧
    (aggregate trivialProj initState [featRad0]).map
      (fun st => st.JTWC.map (fun p => p.2.RAD)) =
      Except.ok [[(18, { radsInit with RAD1 := some 0 })]] ∧
    (aggregate trivialProj initState [featRad0]).map
      (fun st => st.geojsons.map (fun p => p.2.map Prod.fst)) =
      Except.ok [["18-RAD1"]] := by
  refine ⟨?_, ?_, ?_⟩
  · with_unfolding_all rfl
  · with_unfolding_all rfl
  · with_unfolding_all rfl

/-- C8: for a positive-radius quadrant feature with bearing pair
`(b0, b1)` (an end of 0° wrapping to 360°), the synthesized ring starts and
ends at the storm centre and its interior vertices are the projections of
the centre at bearings `b0, b0+2.5, …` up to the (wrapped) end inclusive —
the `arange` bound is end + 2.5 — giving 37 interior vertices for the 90°
arc `[0°, 90°)`. -/
theorem C8_polygon_ring (proj : ℚ → ℚ → ℚ → ℚ → ℚ × ℚ) (f g : Feature)
    (md : List MetaEntry) (lon lat b0 b1 : ℚ) (bu : String)
    (hmd : f.properties.metadata = some md)
    (hco : f.geometry.coords = GeoCoords.point lon lat)
    (hb : lastMeta "bearing_or_azimuth" md = some (MVal.pair b0 b1, bu))
    (_hpos : 0 < f.properties.value)
    (hok : extract_wind_polygon proj f = Except.ok g) :
    g.geometry.gtype = "Polygon" ∧
    g.geometry.coords = GeoCoords.poly
      [(lon, lat) :: ((arange b0 ((if b1 = 0 then 360 else b1) + 2.5) 2.5).map
         (fun b => proj lon lat b f.properties.value) ++ [(lon, lat)])] ∧
    (b0 = 0 → b1 = 90 →
      (arange b0 ((if b1 = 0 then 360 else b1) + 2.5) 2.5).length = 37) := by
  obtain ⟨hty, hring⟩ := ewp_ring proj f g md lon lat b0 b1 bu hmd hco hb hok
  refine ⟨hty, hring, ?_⟩
  rintro rfl rfl
  with_unfolding_all decide

/-- C8, witnessed on the concrete `[0°, 90°)` radius feature under the
stand-in projector. -/
theorem C8_polygon_ring_witness :
    featRadPolyRes.geometry.gtype = "Polygon" ∧
    featRadPolyRes.geometry.coords = GeoCoords.poly
      [(145.5, 2.5) ::
        ((arange 0 ((if (90 : ℚ) = 0 then 360 else 90) + 2.5) 2.5).map
          (fun b => trivialProj 145.5 2.5 b featRad.properties.value) ++
          [(145.5, 2.5)])] ∧
    ((0 : ℚ) = 0 → (90 : ℚ) = 90 →
      (arange 0 ((if (90 : ℚ) = 0 then 360 else 90) + 2.5) 2.5).length = 37) :=
  C8_polygon_ring trivialProj featRad featRadPolyRes radMd 145.5 2.5 0 90 "deg"
    rfl rfl rfl (by norm_num [featRad, mkProps]) (by with_unfolding_all rfl)

set_option maxRecDepth 10000 in
/-- C9 counterexample: `extract_MSLP` mutates its input feature object in
place — the post-state of `featBad` differs from its pre-state (the
`resultTime` field now holds the reference part of the interval). -/
theorem C9_counterexample :
    (extract_MSLP featBad).toOption.map (fun g => g.properties.resultTime) =
      some "not-a-timestamp" ∧
    featBad.properties.resultTime = "2024-01-01T00:00:00Z" ∧
    (extract_MSLP featBad).toOption ≠ some featBad := by
  refine ⟨?_, rfl, ?_⟩
  · with_unfolding_all rfl
  · with_unfolding_all decide

/-- C9 amended: input features are NOT immutable under the transform. The
time-normalisation helpers overwrite the input feature's `resultTime` and
`phenomenonTime` in place (swapping them when `phenomenonTime` is a single
instant), and polygon synthesis deletes the `metadata` key and replaces
the geometry of the input feature object with the synthesized polygon. -/
theorem C9_amended :
    (∀ f g, extract_MSLP f = Except.ok g →
      containsSlash f.properties.phenomenonTime = false →
      g.properties.resultTime = f.properties.phenomenonTime ∧
      g.properties.phenomenonTime = f.properties.resultTime) ∧
    (∀ f g, extract_Vmax f = Except.ok g →
      containsSlash f.properties.phenomenonTime = false →
      g.properties.resultTime = f.properties.phenomenonTime ∧
      g.properties.phenomenonTime = f.properties.resultTime) ∧
    (∀ proj f g, extract_wind_polygon proj f = Except.ok g →
      g.properties.metadata = none ∧ g.geometry.gtype = "Polygon") := by
  refine ⟨?_, ?_, ?_⟩
  · intro f g hok hsl
    unfold extract_MSLP swapTimes at hok
    simp only [hsl, Bool.false_eq_true, if_false, bind, Except.bind,
      Except.ok.injEq] at hok
    subst hok
    exact ⟨rfl, rfl⟩
  · intro f g hok hsl
    unfold extract_Vmax swapTimes at hok
    simp only [hsl, Bool.false_eq_true, if_false, bind, Except.bind,
      Except.ok.injEq] at hok
    subst hok
    exact ⟨rfl, rfl⟩
  · intro proj f g hok
    exact ewp_meta_none proj f g hok

/-- C9 amended, witnessed: the concrete post-states of `featBad` under
`extract_MSLP` and of `featRad` under `extract_wind_polygon`. -/
theorem C9_amended_witness :
    (featBadSwapped.properties.resultTime = "not-a-timestamp" ∧
     featBadSwapped.properties.phenomenonTime = "2024-01-01T00:00:00Z") ∧
    (featRadPolyRes.properties.metadata = none ∧
     featRadPolyRes.geometry.gtype = "Polygon") := by
  constructor
  · exact C9_amended.1 featBad featBadSwapped (by with_unfolding_all rfl) rfl
  · exact C9_amended.2.2 trivialProj featRad featRadPolyRes
      (by with_unfolding_all rfl)

/-- C10: every geojson artifact of a collection is stamped with the
`yyyymmddhh` (and filepath) of whichever record the dat-serialization loop
iterated last, not with its own record's date. -/
theorem C10_geo_date_from_last (dirpath : String) (st : CollState)
    (out : Output) (lastRow : DataRow)
    (hlast : (st.JTWC.map Prod.snd).getLast? = some lastRow)
    (hout : buildOutput dirpath st = Except.ok out) :
    ∀ a ∈ out.geos, a.data_date = lastRow.yyyymmddhh ∧
      a.relative_filepath = localFilepath dirpath lastRow.yyyymmddhh := by
  unfold buildOutput at hout
  obtain ⟨dats, hdats, hout⟩ := bind_eq_ok hout
  rw [hlast] at hout
  try dsimp only at hout
  simp only [Except.ok.injEq] at hout
  subst hout
  intro a ha
  simp only [List.mem_flatMap, List.mem_map] at ha
  obtain ⟨p, hp, q, hq, rfl⟩ := ha
  exact ⟨rfl, rfl⟩

set_option maxRecDepth 40000 in
/-- C10, witnessed: in the two-record collection whose records carry dates
2024010100 and 2025060212, the geojson artifacts are all stamped with the
last record's 2025060212. -/
theorem C10_geo_date_from_last_witness :
    (outC10.geos.headD geoDefault).data_date = "2025060212" ∧
    (outC10.geos.headD geoDefault).relative_filepath = "2025060212/wis/dir" := by
  have h := C10_geo_date_from_last "dir" stC10 outC10 lastRowC10
    (by with_unfolding_all rfl) (by with_unfolding_all rfl)
    (outC10.geos.headD geoDefault) (by with_unfolding_all decide)
  with_unfolding_all exact h

end ToJTWCdat
